import Mathlib

/-!
Shallow embedding of `tools/impl/test_runner.py` from the crosvm repository:
the policy predicates, the cargo build-log consumer, the test execution
engine and the final reporting logic, together with theorems checking the
specification's claims against these definitions.

External collaborators (`test_config.CRATE_OPTIONS`, `test_target`,
subprocess execution, `random.shuffle`) are modelled as explicit parameters:
the options table as an association list, subprocess outcomes as an oracle
function, and the shuffle as an arbitrary function constrained (in the
theorems) to return a permutation of its input.
-/

namespace TestRunner

/-- The members of `test_config.TestOption` used by `test_runner.py`. -/
inductive TestOption where
  | DO_NOT_BUILD
  | BUILD_ARM_ONLY
  | BUILD_X86_ONLY
  | DO_NOT_RUN
  | RUN_ARM_ONLY
  | RUN_X86_ONLY
  | SINGLE_THREADED
deriving DecidableEq

/-- The type `test_target.Arch` is a string literal type (`x86_64`, `aarch64`, `armhf`);
we model it as `String`, matching the string comparisons in the code. -/
abbrev Arch := String

/-- The table `CRATE_OPTIONS`: a mapping from crate name to test options; modelled as an
association list since `test_config.py` is an external configuration module. -/
abbrev CrateOptionsTable := List (String × List TestOption)

/-- Models `CRATE_OPTIONS.get(crate, [])`: dictionary lookup with default `[]`. -/
def getOptions (table : CrateOptionsTable) (crate : String) : List TestOption :=
  match table.lookup crate with
  | some options => options
  | none => []

/-- The `Executable` NamedTuple: info about an executable generated by
cargo build/test. The path is kept as a string. -/
structure Executable where
  binary_path : String
  crate_name : String
  cargo_target : String
  is_test : Bool
  is_fresh : Bool
deriving DecidableEq

/-- The property `Executable.name`: the crate name and cargo target joined by a colon. -/
def Executable.name (e : Executable) : String :=
  e.crate_name ++ ":" ++ e.cargo_target

/-- Models `should_build_crate(crate, target_arch)` from `test_runner.py`. -/
def should_build_crate (table : CrateOptionsTable) (crate : String)
    (target_arch : Arch) : Bool :=
  let options := getOptions table crate
  if options.contains TestOption.DO_NOT_BUILD then
    false
  else if options.contains TestOption.BUILD_ARM_ONLY then
    target_arch == "aarch64" || target_arch == "armhf"
  else if options.contains TestOption.BUILD_X86_ONLY then
    target_arch == "x86_64"
  else
    true

/-- Models `should_run_executable(executable, target_arch)` from `test_runner.py`. -/
def should_run_executable (table : CrateOptionsTable) (executable : Executable)
    (target_arch : Arch) : Bool :=
  let options := getOptions table executable.crate_name
  if options.contains TestOption.DO_NOT_RUN then
    false
  else if options.contains TestOption.RUN_ARM_ONLY then
    target_arch == "aarch64" || target_arch == "armhf"
  else if options.contains TestOption.RUN_X86_ONLY then
    target_arch == "x86_64"
  else
    true

/-- The constant `TEST_TIMEOUT_SECS = 60`. -/
def TEST_TIMEOUT_SECS : Nat := 60

/-- The class `ExecutableResults`: container for results of a test executable. -/
structure ExecutableResults where
  name : String
  success : Bool
  test_log : String
deriving DecidableEq

/-- The observable outcome of `test_target.exec_file_on_target`: either the
process completed with a return code and captured output, or it raised
`subprocess.TimeoutExpired` carrying its `timeout` field and the output
captured so far (`e.stdout`). -/
inductive ExecOutcome where
  | completed (returncode : Int) (stdout : String)
  | timedOut (timeout : Nat) (stdout : String)
deriving DecidableEq

/-- An oracle standing for subprocess execution on the target: given the
binary's `Executable` record, the extra args and the timeout, it produces
the outcome. -/
abbrev ExecOracle := Executable → List String → Nat → ExecOutcome

/-- The `args` list computed at the top of `execute_test`:
`["--test-threads=1"]` when the crate is flagged single-threaded. -/
def execute_test_args (table : CrateOptionsTable) (executable : Executable) :
    List String :=
  let options := getOptions table executable.crate_name
  if options.contains TestOption.SINGLE_THREADED then
    ["--test-threads=1"]
  else
    []

/-- Models `execute_test(target, executable)`: runs one binary and converts the
outcome into an `ExecutableResults`, catching `TimeoutExpired` and appending
the timeout note to the captured output. -/
def execute_test (table : CrateOptionsTable) (run : ExecOracle)
    (executable : Executable) : ExecutableResults :=
  match run executable (execute_test_args table executable) TEST_TIMEOUT_SECS with
  | .completed returncode stdout =>
      { name := executable.name
        success := returncode == 0
        test_log := stdout }
  | .timedOut timeout stdout =>
      { name := executable.name
        success := false
        test_log := stdout ++ "\n\nProcess timed out after " ++ toString timeout ++ "s\n" }

/-- Python's `list * n`: the list concatenated with itself `n` times. -/
def list_mul (l : List Executable) (n : Nat) : List Executable :=
  (List.replicate n l).flatten

/-- The list of executables `execute_all` hands to the worker pool:
the input filtered by `should_run_executable`, then — only when
`repeat > 1` — materialized `repeat` times and shuffled
(`random.shuffle` is modelled by the `shuffle` parameter). -/
def execute_all_dispatched (table : CrateOptionsTable)
    (shuffle : List Executable → List Executable)
    (executables : List Executable) (arch : Arch) (rep : Int) :
    List Executable :=
  let filtered := executables.filter (fun e => should_run_executable table e arch)
  if rep > 1 then
    shuffle (list_mul filtered rep.toNat)
  else
    filtered

/-- The results yielded by `execute_all(executables, target, arch, repeat)`:
each dispatched executable is run by `execute_test` in the pool and its
result yielded. -/
def execute_all_results (table : CrateOptionsTable) (run : ExecOracle)
    (shuffle : List Executable → List Executable)
    (executables : List Executable) (arch : Arch) (rep : Int) :
    List ExecutableResults :=
  (execute_all_dispatched table shuffle executables arch rep).map
    (execute_test table run)

/-- One line of cargo's `--message-format=json-diagnostic-rendered-ansi`
output, as classified by the loop in `cargo`: a non-JSON plain line, a JSON
record with a `message` field (its rendered text), a JSON record with an
`executable` field (already converted to the `Executable` it describes), or
any other JSON record (ignored by the loop). -/
inductive CargoLine where
  | plain (text : String)
  | message (rendered : String)
  | executableRecord (e : Executable)
  | otherJson
deriving DecidableEq

/-- The `messages` buffer accumulated by `cargo`: plain lines (rstripped)
and rendered compiler messages, in stream order. -/
def cargo_messages : List CargoLine → List String
  | [] => []
  | .plain text :: rest => text :: cargo_messages rest
  | .message rendered :: rest => rendered :: cargo_messages rest
  | .executableRecord _ :: rest => cargo_messages rest
  | .otherJson :: rest => cargo_messages rest

/-- The executables yielded by `cargo` while streaming, in stream order. -/
def cargo_yielded : List CargoLine → List Executable
  | [] => []
  | .executableRecord e :: rest => e :: cargo_yielded rest
  | .plain _ :: rest => cargo_yielded rest
  | .message _ :: rest => cargo_yielded rest
  | .otherJson :: rest => cargo_yielded rest

/-- Observable outcome of one `cargo` invocation: the executables it
yielded, the lines it printed, and `some code` when it called
`sys.exit(code)` (terminating the whole process). -/
structure CargoOutcome where
  yielded : List Executable
  printed : List String
  exited : Option Int
deriving DecidableEq

/-- Models `cargo(cargo_command, cwd, flags, env)`: consumes the tool's output
line-by-line (yielding executables, buffering messages, printing them live
in verbose mode), then on a non-zero exit status prints the buffered
messages (unless verbose already printed them) and calls `sys.exit(-1)`. -/
def cargo_run (verbose : Bool) (lines : List CargoLine) (exitCode : Int) :
    CargoOutcome :=
  let messages := cargo_messages lines
  let live := if verbose then messages else []
  if exitCode ≠ 0 then
    { yielded := cargo_yielded lines
      printed := live ++ (if verbose then [] else messages)
      exited := some (-1) }
  else
    { yielded := cargo_yielded lines
      printed := live
      exited := none }

/-- Models `cargo_build_executables`: a `cargo build` pass followed by a
`cargo test --no-run` pass; the second pass happens only if the first one
did not terminate the process. -/
def cargo_build_executables (verbose : Bool)
    (buildLines testLines : List CargoLine) (buildExit testExit : Int) :
    CargoOutcome :=
  let b := cargo_run verbose buildLines buildExit
  match b.exited with
  | some _ => b
  | none =>
      let t := cargo_run verbose testLines testExit
      { yielded := b.yielded ++ t.yielded
        printed := b.printed ++ t.printed
        exited := t.exited }

/-- The crate lists `build_all_binaries` passes to the build driver: the
discovered main and common crates, each filtered by `should_build_crate`. -/
structure BuildPlan where
  main_crates : List String
  common_crates : List String
deriving DecidableEq

/-- The filtering step of `build_all_binaries(target, target_arch)`,
applied to the discovered crate name lists. -/
def build_all_binaries_plan (table : CrateOptionsTable)
    (mains commons : List String) (target_arch : Arch) : BuildPlan :=
  { main_crates := mains.filter (fun crate => should_build_crate table crate target_arch)
    common_crates := commons.filter (fun crate => should_build_crate table crate target_arch) }

/-- Models `find_crosvm_binary(executables)`: returns the first non-test executable
with cargo target `crosvm`; `none` models the `raise Exception` path. -/
def find_crosvm_binary (executables : List Executable) : Option Executable :=
  executables.find? (fun e => !e.is_test && e.cargo_target == "crosvm")

/-- The type `test_target.TestTarget`: local host, built-in VM of a given
architecture, or a remote host reached over SSH. -/
inductive TestTarget where
  | hostTarget
  | vmTarget (arch : Arch)
  | sshTarget (host : String)
deriving DecidableEq

/-- Modelled from the spec: `test_target.get_target_arch` is not under
`src/` (only its caller `main` is). Per the spec, a VM target implies its
own architecture, while Local and Remote targets imply the host's native
architecture. -/
def get_target_arch (host_arch : Arch) : TestTarget → Arch
  | .vmTarget arch => arch
  | .hostTarget => host_arch
  | .sshTarget _ => host_arch

/-- The architecture-resolution step of `main`:
`arch = args.arch; if not arch: arch = get_target_arch(target)`.
`args.arch` is constrained by `choices` to the non-empty `Arch` literals,
so its falsiness is exactly `None`, modelled by `Option`. -/
def resolve_arch (explicit : Option Arch) (host_arch : Arch)
    (target : TestTarget) : Arch :=
  match explicit with
  | some arch => arch
  | none => get_target_arch host_arch target

/-- What the tail of `main` does once it holds `all_results`: partition
into failed, print the summary, and choose the exit status. -/
structure MainExit where
  printed : List String
  exitCode : Int
deriving DecidableEq

/-- The summary/exit logic at the end of `main` (`failed = ...` onwards). -/
def report_results (all_results : List ExecutableResults) : MainExit :=
  let failed := all_results.filter (fun r => !r.success)
  if failed.length = 0 then
    { printed := ["All tests passed."], exitCode := 0 }
  else
    { printed :=
        (toString failed.length ++ " of " ++ toString all_results.length
          ++ " tests failed:")
        :: failed.map (fun r => "  " ++ r.name)
      exitCode := -1 }

/-- Outcome of `main` after the build phase: either the process exited with
a status (printing some lines first), or an uncaught exception was raised. -/
inductive MainOutcome where
  | exited (code : Int) (printed : List String)
  | raised (msg : String)
deriving DecidableEq

/-- The part of `main` after `executables = list(build_all_binaries(...))`:
exit 0 when `--build-only`; otherwise locate the crosvm binary (raising if
absent, before target preparation and test execution), run the test
executables, and report. -/
def main_after_build (build_only : Bool) (executables : List Executable)
    (table : CrateOptionsTable) (run : ExecOracle)
    (shuffle : List Executable → List Executable)
    (arch : Arch) (rep : Int) : MainOutcome :=
  if build_only then
    .exited 0 ["Not running tests as requested."]
  else
    match find_crosvm_binary executables with
    | none => .raised "Cannot find crosvm executable"
    | some _ =>
        let test_executables := executables.filter (fun e => e.is_test)
        let all_results :=
          execute_all_results table run shuffle test_executables arch rep
        let m := report_results all_results
        .exited m.exitCode m.printed

/-- A sample test executable of crate `base`, used to instantiate witness
and counterexample statements. -/
def sample_base_executable : Executable :=
  { binary_path := "target/debug/base_test"
    crate_name := "base"
    cargo_target := "base"
    is_test := true
    is_fresh := false }

/-- A sample non-test `crosvm` binary, as produced by the plain build
pass. -/
def crosvm_main_executable : Executable :=
  { binary_path := "target/debug/crosvm"
    crate_name := "crosvm"
    cargo_target := "crosvm"
    is_test := false
    is_fresh := false }

theorem list_mul_length (l : List Executable) (n : Nat) :
    (list_mul l n).length = n * l.length := by
  induction n with
  | zero => simp [list_mul]
  | succ k ih =>
      simp only [list_mul, List.replicate_succ, List.flatten_cons,
        List.length_append] at *
      rw [ih]
      ring

/-- C1: counterexample — a crate whose policy entry carries both the
arm-only and the x86-only flag is not rejected on every architecture:
on `aarch64` both `should_build_crate` and `should_run_executable` return
true, because the arm-only flag is tested first and wins. -/
theorem c1_counterexample :
    should_build_crate
      [("base", [TestOption.BUILD_ARM_ONLY, TestOption.BUILD_X86_ONLY])]
      "base" "aarch64" = true ∧
    should_run_executable
      [("base", [TestOption.RUN_ARM_ONLY, TestOption.RUN_X86_ONLY])]
      { binary_path := "p", crate_name := "base", cargo_target := "base",
        is_test := true, is_fresh := false }
      "aarch64" = true := by
  constructor <;> rfl

/-- C1 (amended): when a crate's policy entry contains both the arm-only
and the x86-only restriction flag (and not the corresponding do-not flag),
the arm-only flag takes precedence: `should_build_crate` and
`should_run_executable` return true exactly when the target architecture is
aarch64 or armhf, rather than returning false for every architecture. -/
theorem c1_arm_only_precedence (table : CrateOptionsTable) (crate : String)
    (executable : Executable) (arch : Arch)
    (hb1 : (getOptions table crate).contains TestOption.BUILD_ARM_ONLY = true)
    (hb2 : (getOptions table crate).contains TestOption.BUILD_X86_ONLY = true)
    (hb3 : (getOptions table crate).contains TestOption.DO_NOT_BUILD = false)
    (hr1 : (getOptions table executable.crate_name).contains
      TestOption.RUN_ARM_ONLY = true)
    (hr2 : (getOptions table executable.crate_name).contains
      TestOption.RUN_X86_ONLY = true)
    (hr3 : (getOptions table executable.crate_name).contains
      TestOption.DO_NOT_RUN = false) :
    should_build_crate table crate arch
      = (arch == "aarch64" || arch == "armhf") ∧
    should_run_executable table executable arch
      = (arch == "aarch64" || arch == "armhf") := by
  simp at hb1 hb3 hr1 hr3
  constructor
  · simp [should_build_crate, hb1, hb3]
  · simp [should_run_executable, hr1, hr3]

/-- Witness for `c1_arm_only_precedence` at a concrete conflicting entry. -/
theorem c1_arm_only_precedence_witness :
    should_build_crate
      [("base", [TestOption.BUILD_ARM_ONLY, TestOption.BUILD_X86_ONLY,
        TestOption.RUN_ARM_ONLY, TestOption.RUN_X86_ONLY])]
      "base" "armhf" = ("armhf" == "aarch64" || "armhf" == "armhf") :=
  (c1_arm_only_precedence
    [("base", [TestOption.BUILD_ARM_ONLY, TestOption.BUILD_X86_ONLY,
      TestOption.RUN_ARM_ONLY, TestOption.RUN_X86_ONLY])]
    "base"
    { binary_path := "p", crate_name := "base", cargo_target := "base",
      is_test := true, is_fresh := false }
    "armhf" rfl rfl rfl rfl rfl rfl).1

/-- C6: the policy predicates are total boolean functions, and a crate with
no entry in the policy table returns true from both `should_build_crate`
and `should_run_executable` for every architecture. -/
theorem c6_totality_and_default (table : CrateOptionsTable) (crate : String)
    (executable : Executable) (arch : Arch) :
    (should_build_crate table crate arch = true ∨
      should_build_crate table crate arch = false) ∧
    (should_run_executable table executable arch = true ∨
      should_run_executable table executable arch = false) ∧
    (table.lookup crate = none →
      should_build_crate table crate arch = true) ∧
    (table.lookup executable.crate_name = none →
      should_run_executable table executable arch = true) := by
  refine ⟨?_, ?_, ?_, ?_⟩
  · cases hb : should_build_crate table crate arch
    · exact Or.inr rfl
    · exact Or.inl rfl
  · cases hr : should_run_executable table executable arch
    · exact Or.inr rfl
    · exact Or.inl rfl
  · intro h
    simp [should_build_crate, getOptions, h]
  · intro h
    simp [should_run_executable, getOptions, h]

/-- Witness for `c6_totality_and_default`: an unlisted crate builds and
runs on any architecture. -/
theorem c6_totality_and_default_witness :
    should_build_crate [] "crosvm" "x86_64" = true ∧
    should_run_executable []
      { binary_path := "p", crate_name := "crosvm", cargo_target := "crosvm",
        is_test := true, is_fresh := false }
      "x86_64" = true :=
  ⟨(c6_totality_and_default [] "crosvm"
      { binary_path := "p", crate_name := "crosvm", cargo_target := "crosvm",
        is_test := true, is_fresh := false }
      "x86_64").2.2.1 rfl,
   (c6_totality_and_default [] "crosvm"
      { binary_path := "p", crate_name := "crosvm", cargo_target := "crosvm",
        is_test := true, is_fresh := false }
      "x86_64").2.2.2 rfl⟩

/-- C8: architecture resolution is deterministic — an explicit `--arch`
value is used regardless of the target, and with no explicit value the
architecture implied by the resolved execution target is used. -/
theorem c8_arch_resolution (explicit : Option Arch) (host_arch : Arch)
    (target : TestTarget) :
    (∀ a, explicit = some a →
      resolve_arch explicit host_arch target = a) ∧
    (explicit = none →
      resolve_arch explicit host_arch target
        = get_target_arch host_arch target) := by
  constructor
  · intro a h
    subst h
    rfl
  · intro h
    subst h
    rfl

/-- Witness for `c8_arch_resolution`: an explicit `armhf` overrides an
aarch64 VM target. -/
theorem c8_arch_resolution_witness :
    resolve_arch (some "armhf") "x86_64" (TestTarget.vmTarget "aarch64")
      = "armhf" :=
  (c8_arch_resolution (some "armhf") "x86_64"
    (TestTarget.vmTarget "aarch64")).1 "armhf" rfl

/-- C7: a crate flagged do-not-build never appears in the crate lists that
`build_all_binaries` passes to the build driver, on any architecture; a
crate flagged build-arm-only appears there only when the resolved
architecture is aarch64 or armhf. -/
theorem c7_build_plan_filter (table : CrateOptionsTable)
    (mains commons : List String) (crate : String) (arch : Arch) :
    ((getOptions table crate).contains TestOption.DO_NOT_BUILD = true →
      crate ∉ (build_all_binaries_plan table mains commons arch).main_crates ∧
      crate ∉ (build_all_binaries_plan table mains commons arch).common_crates) ∧
    ((getOptions table crate).contains TestOption.BUILD_ARM_ONLY = true →
      (crate ∈ (build_all_binaries_plan table mains commons arch).main_crates ∨
        crate ∈ (build_all_binaries_plan table mains commons arch).common_crates) →
      arch = "aarch64" ∨ arch = "armhf") := by
  constructor
  · intro h
    simp at h
    constructor
    · intro hmem
      have hp := (List.mem_filter.mp hmem).2
      simp [should_build_crate, h] at hp
    · intro hmem
      have hp := (List.mem_filter.mp hmem).2
      simp [should_build_crate, h] at hp
  · intro harm hmem
    simp at harm
    have hp : should_build_crate table crate arch = true := by
      rcases hmem with hm | hm
      · exact (List.mem_filter.mp hm).2
      · exact (List.mem_filter.mp hm).2
    by_cases hd : TestOption.DO_NOT_BUILD ∈ getOptions table crate
    · simp [should_build_crate, hd] at hp
    · simp [should_build_crate, hd, harm] at hp
      exact hp

/-- Witness for `c7_build_plan_filter`: a do-not-build crate is excluded
from both lists at a concrete architecture. -/
theorem c7_build_plan_filter_witness :
    "tpm2" ∉ (build_all_binaries_plan [("tpm2", [TestOption.DO_NOT_BUILD])]
      ["crosvm", "tpm2"] ["tpm2"] "x86_64").main_crates ∧
    "tpm2" ∉ (build_all_binaries_plan [("tpm2", [TestOption.DO_NOT_BUILD])]
      ["crosvm", "tpm2"] ["tpm2"] "x86_64").common_crates :=
  (c7_build_plan_filter [("tpm2", [TestOption.DO_NOT_BUILD])]
    ["crosvm", "tpm2"] ["tpm2"] "tpm2" "x86_64").1 rfl

/-- C9: for every repeat value at most 1 (including 0 and negatives) the
dispatched list is exactly the filtered list — each eligible artifact runs
once, no multiplication and no shuffling — so `--repeat=0` does not
suppress execution. -/
theorem c9_repeat_le_one (table : CrateOptionsTable)
    (shuffle : List Executable → List Executable) (run : ExecOracle)
    (executables : List Executable) (arch : Arch) (rep : Int)
    (h : rep ≤ 1) :
    execute_all_dispatched table shuffle executables arch rep
      = executables.filter (fun e => should_run_executable table e arch) ∧
    execute_all_results table run shuffle executables arch rep
      = (executables.filter (fun e => should_run_executable table e arch)).map
          (execute_test table run) := by
  have hng : ¬ rep > 1 := by omega
  constructor
  · simp [execute_all_dispatched, hng]
  · simp [execute_all_results, execute_all_dispatched, hng]

/-- Witness for `c9_repeat_le_one` at repeat 0 with one eligible binary. -/
theorem c9_repeat_le_one_witness :
    execute_all_dispatched [] id [sample_base_executable] "x86_64" 0
      = [sample_base_executable].filter
          (fun e => should_run_executable [] e "x86_64") :=
  (c9_repeat_le_one [] id (fun _ _ _ => ExecOutcome.completed 0 "")
    [sample_base_executable] "x86_64" 0 (by decide)).1

/-- C2: counterexample — with repeat N = 0 and one artifact passing the
filter, `execute_all` still yields one result, not N times the filtered
count (which would be 0): the multiplication applies only when N > 1. -/
theorem c2_counterexample :
    (execute_all_results [] (fun _ _ _ => ExecOutcome.completed 0 "") id
      [sample_base_executable] "x86_64" 0).length = 1 ∧
    ¬ ((execute_all_results [] (fun _ _ _ => ExecOutcome.completed 0 "") id
      [sample_base_executable] "x86_64" 0).length
        = (0 : Int).toNat *
          ([sample_base_executable].filter
            (fun e => should_run_executable [] e "x86_64")).length) := by
  constructor
  · rfl
  · decide

/-- C2 (amended): for every repeat value N ≥ 1, `execute_all` yields
exactly N times the number of artifacts passing the `should_run` filter
(for N ≤ 1 the filtered list runs exactly once), and when N > 1 the
dispatched list is a permutation of the filtered list materialized N
times. -/
theorem c2_repeat_law (table : CrateOptionsTable) (run : ExecOracle)
    (shuffle : List Executable → List Executable)
    (executables : List Executable) (arch : Arch) (rep : Int)
    (hshuffle : ∀ l, (shuffle l).Perm l)
    (hrep : 1 ≤ rep) :
    (execute_all_results table run shuffle executables arch rep).length
      = rep.toNat *
        (executables.filter (fun e => should_run_executable table e arch)).length ∧
    (1 < rep →
      (execute_all_dispatched table shuffle executables arch rep).Perm
        (list_mul
          (executables.filter (fun e => should_run_executable table e arch))
          rep.toNat)) := by
  have hperm : 1 < rep →
      (execute_all_dispatched table shuffle executables arch rep).Perm
        (list_mul
          (executables.filter (fun e => should_run_executable table e arch))
          rep.toNat) := by
    intro h
    have hd : execute_all_dispatched table shuffle executables arch rep
        = shuffle (list_mul
            (executables.filter (fun e => should_run_executable table e arch))
            rep.toNat) := by
      simp [execute_all_dispatched, h]
    rw [hd]
    exact hshuffle _
  refine ⟨?_, hperm⟩
  by_cases h : 1 < rep
  · rw [execute_all_results, List.length_map, (hperm h).length_eq,
      list_mul_length]
  · have h1 : rep = 1 := by omega
    subst h1
    simp [execute_all_results, execute_all_dispatched]

/-- Witness for `c2_repeat_law` with repeat 2 and the identity shuffle. -/
theorem c2_repeat_law_witness :
    (execute_all_results [] (fun _ _ _ => ExecOutcome.completed 0 "") id
      [sample_base_executable] "x86_64" 2).length
      = (2 : Int).toNat *
        ([sample_base_executable].filter
          (fun e => should_run_executable [] e "x86_64")).length :=
  (c2_repeat_law [] (fun _ _ _ => ExecOutcome.completed 0 "") id
    [sample_base_executable] "x86_64" 2
    (fun l => List.Perm.refl l) (by decide)).1

/-- C3: when the subprocess times out, `execute_test` returns a result with
success false whose log is the captured output with the timeout notice
appended, and `execute_all` still yields one result per dispatched
artifact — a timeout never terminates the run. -/
theorem c3_timeout_is_nonfatal (table : CrateOptionsTable) (run : ExecOracle)
    (executable : Executable) (t : Nat) (captured : String)
    (h : run executable (execute_test_args table executable) TEST_TIMEOUT_SECS
      = ExecOutcome.timedOut t captured) :
    (execute_test table run executable).success = false ∧
    (execute_test table run executable).test_log
      = captured ++ "\n\nProcess timed out after " ++ toString t ++ "s\n" ∧
    ∀ (shuffle : List Executable → List Executable)
      (executables : List Executable) (arch : Arch) (rep : Int),
      (execute_all_results table run shuffle executables arch rep).length
        = (execute_all_dispatched table shuffle executables arch rep).length := by
  refine ⟨?_, ?_, ?_⟩
  · simp [execute_test, h]
  · simp [execute_test, h]
  · intro shuffle executables arch rep
    simp [execute_all_results]

/-- Witness for `c3_timeout_is_nonfatal`: a concrete run that times out at
60 seconds with partially captured output. -/
theorem c3_timeout_is_nonfatal_witness :
    (execute_test [] (fun _ _ _ => ExecOutcome.timedOut 60 "some output")
      sample_base_executable).success = false ∧
    (execute_test [] (fun _ _ _ => ExecOutcome.timedOut 60 "some output")
      sample_base_executable).test_log
      = "some output" ++ "\n\nProcess timed out after " ++ toString 60 ++ "s\n" :=
  ⟨(c3_timeout_is_nonfatal [] (fun _ _ _ => ExecOutcome.timedOut 60 "some output")
      sample_base_executable 60 "some output" rfl).1,
   (c3_timeout_is_nonfatal [] (fun _ _ _ => ExecOutcome.timedOut 60 "some output")
      sample_base_executable 60 "some output" rfl).2.1⟩

/-- C4: a non-zero exit of the build tool is fatal: the combined
build/test pass exits the process with a non-zero status, in non-verbose
mode the whole accumulated message buffer is printed first, and no
executables beyond those already streamed by the failing invocation are
yielded (the test pass never runs). -/
theorem c4_build_failure_fatal (verbose : Bool)
    (buildLines testLines : List CargoLine) (buildExit testExit : Int)
    (h : buildExit ≠ 0) :
    (cargo_build_executables verbose buildLines testLines
      buildExit testExit).exited = some (-1) ∧
    (-1 : Int) ≠ 0 ∧
    (verbose = false →
      (cargo_build_executables verbose buildLines testLines
        buildExit testExit).printed = cargo_messages buildLines) ∧
    (cargo_build_executables verbose buildLines testLines
      buildExit testExit).yielded = cargo_yielded buildLines := by
  have hb : cargo_run verbose buildLines buildExit
      = { yielded := cargo_yielded buildLines
          printed := (if verbose then cargo_messages buildLines else [])
            ++ (if verbose then [] else cargo_messages buildLines)
          exited := some (-1) } := by
    simp [cargo_run, h]
  refine ⟨?_, by decide, ?_, ?_⟩
  · simp [cargo_build_executables, hb]
  · intro hv
    subst hv
    simp [cargo_build_executables, hb]
  · simp [cargo_build_executables, hb]

/-- Witness for `c4_build_failure_fatal`: a failing build pass with one
diagnostic message and one streamed executable, in non-verbose mode. -/
theorem c4_build_failure_fatal_witness :
    (cargo_build_executables false
      [CargoLine.plain "error: build failed",
        CargoLine.executableRecord sample_base_executable]
      [CargoLine.executableRecord sample_base_executable]
      101 0).exited = some (-1) ∧
    (cargo_build_executables false
      [CargoLine.plain "error: build failed",
        CargoLine.executableRecord sample_base_executable]
      [CargoLine.executableRecord sample_base_executable]
      101 0).printed
      = cargo_messages [CargoLine.plain "error: build failed",
          CargoLine.executableRecord sample_base_executable] :=
  ⟨(c4_build_failure_fatal false
      [CargoLine.plain "error: build failed",
        CargoLine.executableRecord sample_base_executable]
      [CargoLine.executableRecord sample_base_executable]
      101 0 (by decide)).1,
   (c4_build_failure_fatal false
      [CargoLine.plain "error: build failed",
        CargoLine.executableRecord sample_base_executable]
      [CargoLine.executableRecord sample_base_executable]
      101 0 (by decide)).2.2.1 rfl⟩

/-- C5: the exit status is 0 exactly when no result failed (printing
"All tests passed."); otherwise the status is non-zero and every failed
artifact's name is printed; and with `--build-only` the run exits 0
without running any test. -/
theorem c5_exit_status (all_results : List ExecutableResults)
    (executables : List Executable) (table : CrateOptionsTable)
    (run : ExecOracle) (shuffle : List Executable → List Executable)
    (arch : Arch) (rep : Int) :
    ((report_results all_results).exitCode = 0 ↔
      (all_results.filter (fun r => !r.success)).length = 0) ∧
    ((all_results.filter (fun r => !r.success)).length = 0 →
      (report_results all_results).printed = ["All tests passed."]) ∧
    ((all_results.filter (fun r => !r.success)).length ≠ 0 →
      (report_results all_results).exitCode ≠ 0 ∧
      ∀ r ∈ all_results.filter (fun r => !r.success),
        ("  " ++ r.name) ∈ (report_results all_results).printed) ∧
    main_after_build true executables table run shuffle arch rep
      = MainOutcome.exited 0 ["Not running tests as requested."] := by
  by_cases h : (all_results.filter (fun r => !r.success)).length = 0
  · refine ⟨?_, ?_, ?_, rfl⟩
    · simp [report_results, h]
    · intro _
      simp [report_results, h]
    · intro hne
      exact absurd h hne
  · refine ⟨?_, ?_, ?_, rfl⟩
    · simp [report_results, h]
    · intro h0
      exact absurd h0 h
    · intro _
      constructor
      · simp [report_results, h]
      · intro r hr
        simp only [report_results, h, if_false]
        exact List.mem_cons_of_mem _ (List.mem_map_of_mem _ hr)

/-- Witness for `c5_exit_status`: one passing result gives exit status 0
and the all-passed message; the build-only branch exits 0. -/
theorem c5_exit_status_witness :
    (report_results
      [{ name := "base:base", success := true, test_log := "" }]).printed
      = ["All tests passed."] ∧
    main_after_build true [] [] (fun _ _ _ => ExecOutcome.completed 0 "") id
      "x86_64" 1 = MainOutcome.exited 0 ["Not running tests as requested."] :=
  ⟨(c5_exit_status [{ name := "base:base", success := true, test_log := "" }]
      [] [] (fun _ _ _ => ExecOutcome.completed 0 "") id "x86_64" 1).2.1 rfl,
   (c5_exit_status [{ name := "base:base", success := true, test_log := "" }]
      [] [] (fun _ _ _ => ExecOutcome.completed 0 "") id "x86_64" 1).2.2.2⟩

theorem find_crosvm_binary_first (e : Executable)
    (hnt : e.is_test = false) (htgt : e.cargo_target = "crosvm") :
    ∀ (front back : List Executable),
      (∀ x ∈ front, ¬(x.is_test = false ∧ x.cargo_target = "crosvm")) →
      find_crosvm_binary (front ++ e :: back) = some e := by
  intro front
  induction front with
  | nil =>
      intro back _
      rw [List.nil_append, find_crosvm_binary]
      apply List.find?_cons_of_pos
      simp [hnt, htgt]
  | cons x xs ih =>
      intro back hfront
      have hx := hfront x (List.mem_cons_self x xs)
      rw [List.cons_append, find_crosvm_binary, List.find?_cons_of_neg]
      · exact ih back (fun y hy => hfront y (List.mem_cons_of_mem x hy))
      · simp only [Bool.and_eq_true, Bool.not_eq_true', beq_iff_eq]
        intro hcontra
        exact hx ⟨hcontra.1, hcontra.2⟩

/-- C10: `find_crosvm_binary` returns the first non-test executable whose
cargo target is `crosvm`; when no such executable exists it raises, and
`main` aborts before target preparation and test execution. -/
theorem c10_find_crosvm (executables : List Executable)
    (table : CrateOptionsTable) (run : ExecOracle)
    (shuffle : List Executable → List Executable) (arch : Arch) (rep : Int) :
    ((∀ e ∈ executables, ¬(e.is_test = false ∧ e.cargo_target = "crosvm")) →
      find_crosvm_binary executables = none ∧
      main_after_build false executables table run shuffle arch rep
        = MainOutcome.raised "Cannot find crosvm executable") ∧
    (∀ (front back : List Executable) (e : Executable),
      executables = front ++ e :: back →
      e.is_test = false → e.cargo_target = "crosvm" →
      (∀ x ∈ front, ¬(x.is_test = false ∧ x.cargo_target = "crosvm")) →
      find_crosvm_binary executables = some e) := by
  constructor
  · intro hall
    have hfind : find_crosvm_binary executables = none := by
      rw [find_crosvm_binary, List.find?_eq_none]
      intro x hx
      simp only [Bool.and_eq_true, Bool.not_eq_true', beq_iff_eq]
      intro hcontra
      exact hall x hx ⟨hcontra.1, hcontra.2⟩
    refine ⟨hfind, ?_⟩
    simp [main_after_build, hfind]
  · intro front back e hsplit hnt htgt hfront
    subst hsplit
    exact find_crosvm_binary_first e hnt htgt front back hfront

/-- Witness for `c10_find_crosvm`: in a list holding a test binary followed
by the crosvm binary, the crosvm binary is found; in a list of only test
binaries, `main` raises before running anything. -/
theorem c10_find_crosvm_witness :
    find_crosvm_binary [sample_base_executable, crosvm_main_executable]
      = some crosvm_main_executable ∧
    main_after_build false [sample_base_executable] []
      (fun _ _ _ => ExecOutcome.completed 0 "") id "x86_64" 1
      = MainOutcome.raised "Cannot find crosvm executable" :=
  ⟨(c10_find_crosvm [sample_base_executable, crosvm_main_executable]
      [] (fun _ _ _ => ExecOutcome.completed 0 "") id "x86_64" 1).2
      [sample_base_executable] [] crosvm_main_executable
      rfl rfl rfl (by decide),
   ((c10_find_crosvm [sample_base_executable] []
      (fun _ _ _ => ExecOutcome.completed 0 "") id "x86_64" 1).1
      (by decide)).2⟩

end TestRunner
